import Mathlib

/-!
Verification development for the wager settlement engine of the
badassinvoices repository (src/api/src/routes/lottery.ts and
src/api/src/db.ts).

The TypeScript source is shallowly embedded: each prepared SQL statement of
db.ts becomes a pure Lean function on a row value, returning the updated row
together with the number of affected rows where the route inspects
`result.changes`; the route handlers of lottery.ts become pure functions from
their request inputs (with the random draw and the refund-dispatch outcome
passed in as oracle inputs) and a store value holding the rows the handler
touches, to a response value and the updated store.  JavaScript numbers that
the routes validate to be integers are modelled as `Int`; `Math.floor(x / 10000)`
on such values coincides with Lean's `Int` division (Euclidean division, which
rounds toward negative infinity for the positive divisor 10000).
-/

namespace Badass

/-- Status values of the `lottery_entries.status` column
(CHECK constraint in db.ts). -/
inductive EntryStatus where
  | pending_vrf
  | won
  | lost
  | refund_failed
deriving DecidableEq, Repr, BEq

/-- Status values of the `invoices.status` column (CHECK constraint in db.ts). -/
inductive InvoiceStatus where
  | pending
  | paid
  | cancelled
  | escrow_funded
deriving DecidableEq, Repr, BEq

/-- One row of the `lottery_pools` table (db.ts).  The `paused` column is an
INTEGER flag in SQLite, modelled as `Bool`. -/
structure Pool where
  total_balance : Int
  total_premiums_collected : Int
  total_payouts : Int
  total_entries : Int
  total_wins : Int
  house_edge_bps : Int
  min_pool_reserve_bps : Int
  max_win_pct_bps : Int
  paused : Bool
deriving DecidableEq, Repr

/-- One row of the `lottery_entries` table (db.ts).  `won` is a nullable
INTEGER column, modelled as `Option Int`. -/
structure LotteryEntry where
  id : String
  invoice_id : String
  client_wallet : String
  invoice_amount : Int
  premium_paid : Int
  win_probability_bps : Int
  status : EntryStatus
  won : Option Int
  random_result : Option String
  tx_signature : Option String
  refund_tx_signature : Option String
  on_chain_address : Option String
  resolved_at : Option Int
deriving DecidableEq, Repr

/-- The columns of an `invoices` row that the settlement engine reads or
writes (db.ts). -/
structure Invoice where
  id : String
  amount : Int
  token_mint : String
  status : InvoiceStatus
  paid_at : Option Int
  tx_signature : Option String
deriving DecidableEq, Repr

namespace lotteryPoolQueries

/-- Model of `lotteryPoolQueries.addPremium` (db.ts lines 222-228): adds the
first parameter to `total_balance`, the second to
`total_premiums_collected`, and increments `total_entries`.  Always matches
the (single) pool row, so it returns only the updated row. -/
def addPremium (balanceAdd premiumsAdd : Int) (p : Pool) : Pool :=
  { p with
    total_balance := p.total_balance + balanceAdd
    total_premiums_collected := p.total_premiums_collected + premiumsAdd
    total_entries := p.total_entries + 1 }

/-- Model of `lotteryPoolQueries.addPayout` (db.ts lines 231-237): subtracts
the first parameter from `total_balance`, adds the second to
`total_payouts` and increments `total_wins`, but only where
`total_balance >= ?` (the fourth parameter).  Returns the row together with
the number of rows changed (0 when the balance guard fails). -/
def addPayout (balanceSub payoutsAdd guardAmount : Int) (p : Pool) :
    Pool × Nat :=
  if guardAmount ≤ p.total_balance then
    ({ p with
        total_balance := p.total_balance - balanceSub
        total_payouts := p.total_payouts + payoutsAdd
        total_wins := p.total_wins + 1 }, 1)
  else
    (p, 0)

end lotteryPoolQueries

namespace lotteryEntryQueries

/-- Model of `lotteryEntryQueries.settle` (db.ts lines 255-259): sets
status/won/random_result/resolved_at/tx_signature, but only where the row
still has `status = 'pending_vrf'`.  Returns the row with the number of
rows changed. -/
def settle (newStatus : EntryStatus) (wonVal : Int) (randomResult : String)
    (resolvedAt : Int) (txSig : Option String) (e : LotteryEntry) :
    LotteryEntry × Nat :=
  if e.status = EntryStatus.pending_vrf then
    ({ e with
        status := newStatus
        won := some wonVal
        random_result := some randomResult
        resolved_at := some resolvedAt
        tx_signature := txSig }, 1)
  else
    (e, 0)

/-- Model of `lotteryEntryQueries.updateRefundTx` (db.ts lines 261-263). -/
def updateRefundTx (sig : String) (e : LotteryEntry) : LotteryEntry :=
  { e with refund_tx_signature := some sig }

/-- Model of `lotteryEntryQueries.updateStatus` (db.ts lines 265-267):
unconditionally sets the status column. -/
def updateStatus (newStatus : EntryStatus) (e : LotteryEntry) : LotteryEntry :=
  { e with status := newStatus }

end lotteryEntryQueries

namespace invoiceQueries

/-- Model of `invoiceQueries.updateStatus` (db.ts lines 148-150). -/
def updateStatus (newStatus : InvoiceStatus) (paidAt : Int)
    (txSig : Option String) (i : Invoice) : Invoice :=
  { i with status := newStatus, paid_at := some paidAt, tx_signature := txSig }

end invoiceQueries

/-! ### Pool operation sequences (claim C5)

Entry creation credits the pool through `addPremium` with the validated
positive premium for both the balance and the premiums column
(lottery.ts lines 240-244); settlement debits it through `addPayout`,
passing the refund amount for the subtraction, the payouts column and the
balance guard alike (lottery.ts lines 349-354). -/

/-- A pool mutation as issued by the routes: a credit from entry creation
(amount used for balance and premiums alike) or a balance-guarded debit
from settlement (amount used for subtraction, payouts and guard alike). -/
inductive PoolOp where
  | credit (amount : Int)
  | debit (amount : Int)
deriving DecidableEq, Repr

/-- Apply one pool operation, exactly as the corresponding route invokes the
prepared statement. -/
def applyPoolOp (p : Pool) : PoolOp → Pool
  | PoolOp.credit a => lotteryPoolQueries.addPremium a a p
  | PoolOp.debit a => (lotteryPoolQueries.addPayout a a a p).1

/-- Apply a sequence of pool operations, first element first. -/
def applyPoolOps (p : Pool) : List PoolOp → Pool
  | [] => p
  | op :: rest => applyPoolOps (applyPoolOp p op) rest

/-- Claim C5: starting from a pool with non-negative balance, after any
sequence of entry-creation credits (validated positive premiums) and
balance-guarded payout debits, the pool balance remains non-negative. -/
theorem pool_balance_never_negative (ops : List PoolOp) (p : Pool)
    (hp : 0 ≤ p.total_balance)
    (hcredit : ∀ a, PoolOp.credit a ∈ ops → 0 < a) :
    0 ≤ (applyPoolOps p ops).total_balance := by
  induction ops generalizing p with
  | nil => exact hp
  | cons op rest ih =>
    cases op with
    | credit a =>
      have ha : 0 < a := hcredit a (by simp)
      refine ih _ ?_ (fun b hb => hcredit b (by simp [hb]))
      simp only [applyPoolOp, lotteryPoolQueries.addPremium]
      omega
    | debit a =>
      refine ih _ ?_ (fun b hb => hcredit b (by simp [hb]))
      simp only [applyPoolOp, lotteryPoolQueries.addPayout]
      split
      · simp only
        omega
      · exact hp

/-- Witness for `pool_balance_never_negative` at a concrete operation
sequence: a credit of 100, a successful debit of 60, and a debit of 80 whose
balance guard fails. -/
theorem pool_balance_never_negative_witness :
    0 ≤ (applyPoolOps
      { total_balance := 0, total_premiums_collected := 0, total_payouts := 0,
        total_entries := 0, total_wins := 0, house_edge_bps := 500,
        min_pool_reserve_bps := 2000, max_win_pct_bps := 1000, paused := false }
      [PoolOp.credit 100, PoolOp.debit 60, PoolOp.debit 80]).total_balance :=
  pool_balance_never_negative _ _ (by decide)
    (by intro a ha; simp at ha; subst ha; decide)

/-! ### Randomness source (claim C8)

`secureRandomInt` (lottery.ts lines 43-53) reads a 32-bit big-endian integer
from `crypto.randomBytes` and rejection-samples: raw values at or beyond
`maxValid = floor(0xFFFFFFFF / maxExclusive) * maxExclusive` are discarded
and redrawn; an accepted value is reduced modulo `maxExclusive`.  A loop
iteration is modelled as a function of the raw 32-bit draw, returning `none`
when the draw is rejected (and the loop retries with fresh bytes). -/

/-- Model of the rejection cutoff `maxValid` of `secureRandomInt`
(lottery.ts line 46). -/
def maxValid (maxExclusive : Nat) : Nat :=
  0xFFFFFFFF / maxExclusive * maxExclusive

/-- One iteration of the `secureRandomInt` rejection-sampling loop
(lottery.ts lines 47-52), as a function of the raw 32-bit value read from
the secure byte source: `none` means the value is discarded and the loop
retries. -/
def secureRandomIntStep (maxExclusive : Nat) (v : Nat) : Option Nat :=
  if v < maxValid maxExclusive then some (v % maxExclusive) else none

/-- The 32-bit raw draws that `secureRandomInt 10000` accepts and maps to
the result `r`. -/
def acceptedPreimages (r : Nat) : Finset Nat :=
  (Finset.range (2 ^ 32)).filter fun v => secureRandomIntStep 10000 v = some r

theorem maxValid_10000 : maxValid 10000 = 4294960000 := by
  norm_num [maxValid]

theorem mem_acceptedPreimages (r v : Nat) :
    v ∈ acceptedPreimages r ↔ v < 4294960000 ∧ v % 10000 = r := by
  unfold acceptedPreimages secureRandomIntStep
  rw [maxValid_10000]
  simp only [Finset.mem_filter, Finset.mem_range]
  constructor
  · rintro ⟨h32, h⟩
    split at h
    · exact ⟨by assumption, by simpa using h⟩
    · simp at h
  · rintro ⟨hmax, hmod⟩
    refine ⟨by omega, ?_⟩
    rw [if_pos hmax]
    simp [hmod]

theorem acceptedPreimages_eq_image (r : Nat) (hr : r < 10000) :
    acceptedPreimages r =
      (Finset.range 429496).image (fun k => k * 10000 + r) := by
  ext v
  rw [mem_acceptedPreimages]
  simp only [Finset.mem_image, Finset.mem_range]
  constructor
  · rintro ⟨hmax, hmod⟩
    exact ⟨v / 10000, by omega, by omega⟩
  · rintro ⟨k, hk, rfl⟩
    constructor
    · omega
    · omega

/-- Claim C8: `secureRandomInt(10000)` always returns a value in
`[0, 10000)`, and each of the 10000 possible results has exactly the same
number of accepted 32-bit preimages (429496) under the rejection-sampling
cutoff, so a uniform byte source yields a uniform result. -/
theorem secure_random_int_unbiased (r : Nat) (hr : r < 10000) :
    (acceptedPreimages r).card = 429496 ∧
      ∀ v res, secureRandomIntStep 10000 v = some res → res < 10000 := by
  constructor
  · rw [acceptedPreimages_eq_image r hr,
      Finset.card_image_of_injective _ (fun a b hab => by omega)]
    exact Finset.card_range 429496
  · intro v res h
    unfold secureRandomIntStep at h
    split at h
    · simp only [Option.some.injEq] at h
      omega
    · simp at h

/-- Witness for `secure_random_int_unbiased` at the concrete result 7296. -/
theorem secure_random_int_unbiased_witness :
    (acceptedPreimages 7296).card = 429496 ∧
      ∀ v res, secureRandomIntStep 10000 v = some res → res < 10000 :=
  secure_random_int_unbiased 7296 (by decide)

/-! ### Solvency arithmetic (claims C4 and C10)

The settlement route (lottery.ts lines 313-324) computes
`reserveRequired = floor(balance * minReserveBps / 10000)`,
`availableForPayout = balance - reserveRequired` and
`maxSingleWin = floor(availableForPayout * maxWinPctBps / 10000)`.
The pool snapshot route (lottery.ts lines 88-92) computes
`availablePool = floor(balance * (10000 - minReserveBps) / 10000)` and
`maxWin = floor(availablePool * maxWinPctBps / 10000)`. -/

/-- Model of `availableForPayout` as computed by the settlement route
(lottery.ts lines 316-317). -/
def availableForPayout (balance minReserveBps : Int) : Int :=
  balance - balance * minReserveBps / 10000

/-- Model of `maxSingleWin` as computed by the settlement route
(lottery.ts line 318). -/
def maxSingleWin (balance minReserveBps maxWinPctBps : Int) : Int :=
  availableForPayout balance minReserveBps * maxWinPctBps / 10000

/-- Model of `availablePool` as computed by the pool snapshot route
(lottery.ts lines 89-91). -/
def snapshotAvailablePool (balance minReserveBps : Int) : Int :=
  balance * (10000 - minReserveBps) / 10000

/-- Model of `maxWin` as advertised by the pool snapshot route
(lottery.ts line 92). -/
def snapshotMaxWin (balance minReserveBps maxWinPctBps : Int) : Int :=
  snapshotAvailablePool balance minReserveBps * maxWinPctBps / 10000

/-- Counterexample to claim C10: at pool balance 12 with the default
parameters `minReserveBps = 2000` and `maxWinPctBps = 1000`, the snapshot
advertises a maximum win of 0 while settlement enforces a ceiling of 1. -/
theorem snapshot_settlement_maxwin_counterexample :
    snapshotMaxWin 12 2000 1000 = 0 ∧ maxSingleWin 12 2000 1000 = 1 ∧
      snapshotMaxWin 12 2000 1000 ≠ maxSingleWin 12 2000 1000 := by
  decide

theorem snapshotAvailablePool_le_availableForPayout
    (balance minReserveBps : Int) :
    snapshotAvailablePool balance minReserveBps ≤
      availableForPayout balance minReserveBps := by
  unfold snapshotAvailablePool availableForPayout
  have h : balance * (10000 - minReserveBps) =
      balance * 10000 - balance * minReserveBps := by ring
  rw [h]
  generalize balance * minReserveBps = t
  omega

/-- Claim C10 amended: the snapshot's advertised maximum win never exceeds
the ceiling enforced at settlement (they can differ, as the counterexample
shows, because `floor(b*(10000-m)/10000)` is at most
`b - floor(b*m/10000)`); the two agree only up to this floor rounding. -/
theorem snapshot_maxwin_le_settlement_maxwin
    (balance minReserveBps maxWinPctBps : Int) (hp : 0 ≤ maxWinPctBps) :
    snapshotMaxWin balance minReserveBps maxWinPctBps ≤
      maxSingleWin balance minReserveBps maxWinPctBps := by
  unfold snapshotMaxWin maxSingleWin
  apply Int.ediv_le_ediv (by norm_num)
  exact mul_le_mul_of_nonneg_right
    (snapshotAvailablePool_le_availableForPayout balance minReserveBps) hp

/-- Witness for `snapshot_maxwin_le_settlement_maxwin` at balance 12 and the
default pool parameters. -/
theorem snapshot_maxwin_le_settlement_maxwin_witness :
    snapshotMaxWin 12 2000 1000 ≤ maxSingleWin 12 2000 1000 :=
  snapshot_maxwin_le_settlement_maxwin 12 2000 1000 (by decide)

/-! ### Settlement (claims C1, C2, C3, C4)

`POST /settle/:entryId` (lottery.ts lines 266-436).  The random draw, the
current wall-clock second and the outcome of the external refund dispatch
are oracle inputs.  The store holds the rows the handler touches: the entry
row for the requested id, its invoice row, and the pool row for the
invoice's token mint (each `none` when the lookup finds no row). -/

/-- Return value of the better-sqlite3 transaction closure
`settleTransaction` (lottery.ts lines 330-368): `true`, `false` or the
string `"forced_loss"`. -/
inductive TxResult where
  | settled
  | alreadySettled
  | forcedLoss
deriving DecidableEq, Repr

/-- The rows as committed by the settlement transaction, together with its
return value. -/
structure TxOut where
  res : TxResult
  entry : LotteryEntry
  pool : Pool
  invoice : Invoice
deriving DecidableEq, Repr

/-- Model of the transaction closure `settleTransaction`
(lottery.ts lines 330-368): compare-and-swap the entry row via the
status-guarded `settle` statement; on zero changes report that a concurrent
caller already settled; if won, debit the pool through the balance-guarded
`addPayout`, and on zero changes attempt to revert the entry to lost (again
through the status-guarded `settle` statement) and return the forced-loss
marker; otherwise mark the invoice paid. -/
def settleTransaction (wonFlag : Bool) (randomHex : String) (now : Int)
    (txSig : Option String) (entry : LotteryEntry) (invoice : Invoice)
    (pool : Pool) : TxOut :=
  let first := lotteryEntryQueries.settle
    (if wonFlag then EntryStatus.won else EntryStatus.lost)
    (if wonFlag then 1 else 0) randomHex now txSig entry
  if first.2 = 0 then
    ⟨TxResult.alreadySettled, first.1, pool, invoice⟩
  else if wonFlag then
    let refundAmount := entry.invoice_amount + entry.premium_paid
    let poolResult :=
      lotteryPoolQueries.addPayout refundAmount refundAmount refundAmount pool
    if poolResult.2 = 0 then
      ⟨TxResult.forcedLoss,
        (lotteryEntryQueries.settle EntryStatus.lost 0 randomHex now txSig
          first.1).1,
        pool, invoice⟩
    else
      ⟨TxResult.settled, first.1, poolResult.1,
        invoiceQueries.updateStatus InvoiceStatus.paid now txSig invoice⟩
  else
    ⟨TxResult.settled, first.1, pool,
      invoiceQueries.updateStatus InvoiceStatus.paid now txSig invoice⟩

/-- The rows visible to one settlement request. -/
structure SettleStore where
  entry : Option LotteryEntry
  invoice : Option Invoice
  pool : Option Pool
deriving DecidableEq, Repr

/-- The parts of the settlement route's JSON response that the claims are
about: HTTP 404 bodies are collapsed into `notFound`; an `ok` response
carries the `won` flag, the `randomValue` field (null on the
already-settled early return), the reported entry status, the HTTP status
code and the `refundPending` flag. -/
inductive SettleResponse where
  | notFound
  | ok (won : Bool) (randomValue : Option Nat) (status : EntryStatus)
      (httpCode : Nat) (refundPending : Bool)
deriving DecidableEq, Repr

/-- Model of the `POST /settle/:entryId` handler (lottery.ts lines 266-436):
idempotency early-return for a non-pending entry; invoice and pool lookups;
provisional decision `randomValue < win_probability_bps`; solvency override
to loss when the refund exceeds `availableForPayout` or `maxSingleWin`;
the atomic transaction; then, outside the transaction, the refund dispatch
whose failure sets the entry status to `refund_failed`. -/
def settleRoute (randomValue : Nat) (randomHex : String) (now : Int)
    (refundOk : Bool) (refundSig : String) (s : SettleStore) :
    SettleResponse × SettleStore :=
  match s.entry with
  | none => (SettleResponse.notFound, s)
  | some entry =>
    if entry.status ≠ EntryStatus.pending_vrf then
      (SettleResponse.ok (decide (entry.won = some 1)) none entry.status 200
        false, s)
    else
      match s.invoice with
      | none => (SettleResponse.notFound, s)
      | some invoice =>
        match s.pool with
        | none => (SettleResponse.notFound, s)
        | some pool =>
          let won0 : Bool :=
            decide ((randomValue : Int) < entry.win_probability_bps)
          let refundAmount := entry.invoice_amount + entry.premium_paid
          let wonFlag : Bool :=
            if won0 then
              if refundAmount >
                    availableForPayout pool.total_balance
                      pool.min_pool_reserve_bps ∨
                  refundAmount >
                    maxSingleWin pool.total_balance pool.min_pool_reserve_bps
                      pool.max_win_pct_bps then
                false
              else
                true
            else
              false
          let txSig := entry.tx_signature
          let txOut := settleTransaction wonFlag randomHex now txSig entry
            invoice pool
          let s1 : SettleStore :=
            ⟨some txOut.entry, some txOut.invoice, some txOut.pool⟩
          match txOut.res with
          | TxResult.alreadySettled =>
            (SettleResponse.ok (decide (txOut.entry.won = some 1))
              (some randomValue) txOut.entry.status 200 false, s1)
          | TxResult.forcedLoss =>
            (SettleResponse.ok false (some randomValue) EntryStatus.lost 200
              false, s1)
          | TxResult.settled =>
            if wonFlag then
              if refundOk then
                let e2 := lotteryEntryQueries.updateRefundTx refundSig
                  txOut.entry
                (SettleResponse.ok true (some randomValue) EntryStatus.won 200
                  false, { s1 with entry := some e2 })
              else
                let e2 := lotteryEntryQueries.updateStatus
                  EntryStatus.refund_failed txOut.entry
                (SettleResponse.ok true (some randomValue) EntryStatus.won 202
                  true, { s1 with entry := some e2 })
            else
              (SettleResponse.ok false (some randomValue) EntryStatus.lost 200
                false, s1)

/-- A pending entry for the scenario where the upfront solvency check passed
on a stale pool snapshot but the pool cannot cover the refund at
transaction time. -/
def raceEntry : LotteryEntry :=
  ⟨"entry-1", "inv-1", "wallet-1", 100000000, 20000000, 5000,
    EntryStatus.pending_vrf, none, none, none, none, none, none⟩

/-- The invoice of `raceEntry`. -/
def raceInvoice : Invoice :=
  ⟨"inv-1", 100000000, "mint-1", InvoiceStatus.pending, none, none⟩

/-- A pool whose balance (0) cannot cover the 120000000 refund, as seen by
the settlement transaction after a concurrent debit. -/
def racePool : Pool := ⟨0, 0, 0, 0, 0, 500, 2000, 1000, false⟩

/-- Claim C1 is a code bug: when the balance-guarded pool debit affects zero
rows, the attempted revert reuses the `settle` statement whose
`WHERE status = 'pending_vrf'` clause no longer matches (the entry was set
to `won` earlier in the same transaction), so the revert changes zero rows
and the transaction commits the entry with status `won` and `won = 1` --
not flipped to lost as the spec requires. -/
theorem forced_loss_revert_is_noop :
    (settleTransaction true "aa" 1700000000 none raceEntry raceInvoice
      racePool).res = TxResult.forcedLoss ∧
    (settleTransaction true "aa" 1700000000 none raceEntry raceInvoice
      racePool).entry.status = EntryStatus.won ∧
    (settleTransaction true "aa" 1700000000 none raceEntry raceInvoice
      racePool).entry.won = some 1 ∧
    (settleTransaction true "aa" 1700000000 none raceEntry raceInvoice
      racePool).entry.status ≠ EntryStatus.lost := by
  decide

/-- Claim C2 is a code bug on the forced-loss path: the transaction returns
the forced-loss marker before reaching the invoice update, so the invoice
stays `pending` instead of being marked `paid` -- even though the client
already paid stake plus premium and the route's response says the invoice
has been paid. -/
theorem forced_loss_skips_invoice_paid :
    (settleTransaction true "aa" 1700000000 none raceEntry raceInvoice
      racePool).res = TxResult.forcedLoss ∧
    (settleTransaction true "aa" 1700000000 none raceEntry raceInvoice
      racePool).invoice.status = InvoiceStatus.pending ∧
    (settleTransaction true "aa" 1700000000 none raceEntry raceInvoice
      racePool).invoice.status ≠ InvoiceStatus.paid := by
  decide

/-- Claim C4: when the refund exceeds `availableForPayout` or
`maxSingleWin`, the recorded outcome of settlement is lost regardless of
the random draw, and the pool row is untouched by any payout. -/
theorem solvency_override_forces_loss (randomValue : Nat) (randomHex : String)
    (now : Int) (refundOk : Bool) (refundSig : String) (e : LotteryEntry)
    (i : Invoice) (p : Pool)
    (hst : e.status = EntryStatus.pending_vrf)
    (hover :
      e.invoice_amount + e.premium_paid >
          availableForPayout p.total_balance p.min_pool_reserve_bps ∨
        e.invoice_amount + e.premium_paid >
          maxSingleWin p.total_balance p.min_pool_reserve_bps
            p.max_win_pct_bps) :
    (settleRoute randomValue randomHex now refundOk refundSig
        ⟨some e, some i, some p⟩).1 =
      SettleResponse.ok false (some randomValue) EntryStatus.lost 200 false ∧
    (∃ e1, (settleRoute randomValue randomHex now refundOk refundSig
        ⟨some e, some i, some p⟩).2.entry = some e1 ∧
      e1.status = EntryStatus.lost ∧ e1.won = some 0) ∧
    (settleRoute randomValue randomHex now refundOk refundSig
        ⟨some e, some i, some p⟩).2.pool = some p := by
  by_cases hw : ((randomValue : Int) < e.win_probability_bps) <;>
    simp [settleRoute, settleTransaction, lotteryEntryQueries.settle, hst,
      hw, hover]

/-- Witness for `solvency_override_forces_loss`: a winning draw (0, below
the 5000 bps threshold) on `raceEntry` against the empty `racePool` is
recorded as lost and the pool is untouched. -/
theorem solvency_override_forces_loss_witness :
    (settleRoute 0 "bb" 1700000000 true "sig"
        ⟨some raceEntry, some raceInvoice, some racePool⟩).1 =
      SettleResponse.ok false (some 0) EntryStatus.lost 200 false ∧
    (∃ e1, (settleRoute 0 "bb" 1700000000 true "sig"
        ⟨some raceEntry, some raceInvoice, some racePool⟩).2.entry = some e1 ∧
      e1.status = EntryStatus.lost ∧ e1.won = some 0) ∧
    (settleRoute 0 "bb" 1700000000 true "sig"
        ⟨some raceEntry, some raceInvoice, some racePool⟩).2.pool =
      some racePool :=
  solvency_override_forces_loss 0 "bb" 1700000000 true "sig" raceEntry
    raceInvoice racePool (by decide) (Or.inl (by decide))

/-- Idempotency early return (lottery.ts lines 276-291): settling an entry
whose status is no longer `pending_vrf` returns the recorded outcome and
leaves the store untouched. -/
theorem settle_route_already (rv : Nat) (rh : String) (n : Int) (ro : Bool)
    (rs : String) (s : SettleStore) (e : LotteryEntry)
    (he : s.entry = some e) (hst : e.status ≠ EntryStatus.pending_vrf) :
    settleRoute rv rh n ro rs s =
      (SettleResponse.ok (decide (e.won = some 1)) none e.status 200 false,
        s) := by
  obtain ⟨se, si, sp⟩ := s
  dsimp only at he
  subst he
  simp [settleRoute, hst]

/-- Any settlement of a pending entry commits a decided entry (status no
longer `pending_vrf`) and debits the pool at most once: the committed pool
row either equals the input row on the payout columns or reflects exactly
one refund-sized debit. -/
theorem settle_route_decides (rv : Nat) (rh : String) (n : Int) (ro : Bool)
    (rs : String) (e : LotteryEntry) (i : Invoice) (p : Pool)
    (hst : e.status = EntryStatus.pending_vrf) :
    ∃ e1 i1 p1,
      (settleRoute rv rh n ro rs ⟨some e, some i, some p⟩).2 =
        ⟨some e1, some i1, some p1⟩ ∧
      e1.status ≠ EntryStatus.pending_vrf ∧
      ((p1.total_wins = p.total_wins ∧ p1.total_balance = p.total_balance ∧
          p1.total_payouts = p.total_payouts) ∨
        (p1.total_wins = p.total_wins + 1 ∧
          p1.total_balance =
            p.total_balance - (e.invoice_amount + e.premium_paid) ∧
          p1.total_payouts =
            p.total_payouts + (e.invoice_amount + e.premium_paid))) := by
  by_cases hw : ((rv : Int) < e.win_probability_bps) <;>
  by_cases hov : (e.invoice_amount + e.premium_paid >
      availableForPayout p.total_balance p.min_pool_reserve_bps ∨
    e.invoice_amount + e.premium_paid >
      maxSingleWin p.total_balance p.min_pool_reserve_bps
        p.max_win_pct_bps) <;>
  by_cases hg : (e.invoice_amount + e.premium_paid ≤ p.total_balance) <;>
  cases ro <;>
  simp [settleRoute, settleTransaction, lotteryEntryQueries.settle,
    lotteryPoolQueries.addPayout, lotteryEntryQueries.updateRefundTx,
    lotteryEntryQueries.updateStatus, hst, hw, hov, hg] <;>
  exact ⟨_, _, _, ⟨rfl, rfl, rfl⟩, by simp, by simp⟩

/-- Claim C3: settlement is idempotent.  After a first settlement call has
decided a pending entry, a second call (with any draw, clock or
refund-dispatch oracle) returns exactly the recorded outcome (`won` flag
and status as stored, `randomValue` null), changes no stored state, and
across both calls the pool debit happened at most once (the pool row shows
either no payout or exactly one refund-sized payout). -/
theorem settlement_idempotent (rv1 rv2 : Nat) (rh1 rh2 : String)
    (n1 n2 : Int) (ro1 ro2 : Bool) (rs1 rs2 : String) (e : LotteryEntry)
    (i : Invoice) (p : Pool) (hst : e.status = EntryStatus.pending_vrf) :
    ∃ e1 p1,
      (settleRoute rv1 rh1 n1 ro1 rs1 ⟨some e, some i, some p⟩).2.entry =
        some e1 ∧
      (settleRoute rv1 rh1 n1 ro1 rs1 ⟨some e, some i, some p⟩).2.pool =
        some p1 ∧
      e1.status ≠ EntryStatus.pending_vrf ∧
      settleRoute rv2 rh2 n2 ro2 rs2
          (settleRoute rv1 rh1 n1 ro1 rs1 ⟨some e, some i, some p⟩).2 =
        (SettleResponse.ok (decide (e1.won = some 1)) none e1.status 200
          false,
          (settleRoute rv1 rh1 n1 ro1 rs1 ⟨some e, some i, some p⟩).2) ∧
      ((p1.total_wins = p.total_wins ∧ p1.total_balance = p.total_balance ∧
          p1.total_payouts = p.total_payouts) ∨
        (p1.total_wins = p.total_wins + 1 ∧
          p1.total_balance =
            p.total_balance - (e.invoice_amount + e.premium_paid) ∧
          p1.total_payouts =
            p.total_payouts + (e.invoice_amount + e.premium_paid))) := by
  obtain ⟨e1, i1, p1, hres, hdec, hpool⟩ :=
    settle_route_decides rv1 rh1 n1 ro1 rs1 e i p hst
  refine ⟨e1, p1, ?_, ?_, hdec, ?_, hpool⟩
  · rw [hres]
  · rw [hres]
  · rw [hres]
    exact settle_route_already rv2 rh2 n2 ro2 rs2 _ e1 rfl hdec

/-- Witness for `settlement_idempotent`: the entry of the spec's test
scenario (stake 100000000, premium 20000000, 5000 bps) settled twice
against a well-funded pool. -/
theorem settlement_idempotent_witness :
    ∃ e1 p1,
      (settleRoute 1999 "cc" 1700000000 true "sig1"
        ⟨some raceEntry, some raceInvoice,
          some ⟨2000000000, 0, 0, 0, 0, 500, 2000, 1000, false⟩⟩).2.entry =
        some e1 ∧
      (settleRoute 1999 "cc" 1700000000 true "sig1"
        ⟨some raceEntry, some raceInvoice,
          some ⟨2000000000, 0, 0, 0, 0, 500, 2000, 1000, false⟩⟩).2.pool =
        some p1 ∧
      e1.status ≠ EntryStatus.pending_vrf ∧
      settleRoute 7777 "dd" 1700000777 false "sig2"
          (settleRoute 1999 "cc" 1700000000 true "sig1"
            ⟨some raceEntry, some raceInvoice,
              some ⟨2000000000, 0, 0, 0, 0, 500, 2000, 1000, false⟩⟩).2 =
        (SettleResponse.ok (decide (e1.won = some 1)) none e1.status 200
          false,
          (settleRoute 1999 "cc" 1700000000 true "sig1"
            ⟨some raceEntry, some raceInvoice,
              some ⟨2000000000, 0, 0, 0, 0, 500, 2000, 1000, false⟩⟩).2) ∧
      ((p1.total_wins = 0 ∧ p1.total_balance = 2000000000 ∧
          p1.total_payouts = 0) ∨
        (p1.total_wins = 0 + 1 ∧
          p1.total_balance = 2000000000 -
            (raceEntry.invoice_amount + raceEntry.premium_paid) ∧
          p1.total_payouts = 0 +
            (raceEntry.invoice_amount + raceEntry.premium_paid))) :=
  settlement_idempotent 1999 7777 "cc" "dd" 1700000000 1700000777 true false
    "sig1" "sig2" raceEntry raceInvoice
    ⟨2000000000, 0, 0, 0, 0, 500, 2000, 1000, false⟩ (by decide)

/-! ### Entry creation (claims C6, C7, C9)

`POST /entry` (lottery.ts lines 161-263), the in-memory rate limiter
(lottery.ts lines 19-31) and the odds formula shared with
`POST /calculate-odds` (lottery.ts lines 140-141 and 222-225). -/

/-- One value of the in-memory `rateLimiter` map (lottery.ts line 20):
a request count and the window's reset time in milliseconds. -/
structure RateEntry where
  count : Nat
  reset : Int
deriving DecidableEq, Repr

/-- Model of `checkRateLimit` (lottery.ts lines 21-31) for one key: on a
missing or expired window, start a fresh window of 60000 ms with count 1
and admit; otherwise reject once the count has reached the limit, else
increment and admit.  Returns the admission flag and the updated map
value for the key. -/
def checkRateLimit (maxPerMinute : Nat) (now : Int) (st : Option RateEntry) :
    Bool × Option RateEntry :=
  match st with
  | none => (true, some ⟨1, now + 60000⟩)
  | some entry =>
    if now > entry.reset then
      (true, some ⟨1, now + 60000⟩)
    else if maxPerMinute ≤ entry.count then
      (false, some entry)
    else
      (true, some ⟨entry.count + 1, entry.reset⟩)

/-- Model of the `sliderValue` coercion (lottery.ts lines 140 and 224): a
missing or non-numeric `riskSlider` is treated as 0.  The client-supplied
number is modelled as a rational. -/
def sliderValueOf (riskSlider : Option ℚ) : ℚ :=
  riskSlider.getD 0

/-- Model of the odds formula shared by `POST /calculate-odds`
(lottery.ts line 141) and `POST /entry` (lottery.ts line 225):
`Math.min(Math.max(Math.floor(sliderValue * 100), 0), 5000)`. -/
def winProbabilityBpsOf (riskSlider : Option ℚ) : Int :=
  min (max ⌊sliderValueOf riskSlider * 100⌋ 0) 5000

/-- The pool row created by `lotteryPoolQueries.create` with the route's
default parameters (lottery.ts lines 210-219) and the schema's column
defaults (db.ts lines 68-82). -/
def defaultPool : Pool := ⟨0, 0, 0, 0, 0, 500, 2000, 1000, false⟩

/-- The rows visible to entry creation, plus the process-local rate-limiter
value for the requesting wallet's key. -/
structure EntryStore where
  invoices : List Invoice
  entries : List LotteryEntry
  pool : Option Pool
  rate : Option RateEntry
deriving DecidableEq, Repr

/-- The outcome classes of the `POST /entry` response: 400-class validation
or conflict errors, 404 for an unknown invoice, the distinct 429 throttle
from the rate limiter, and the success response carrying the computed win
probability. -/
inductive EntryResult where
  | badRequest
  | notFound
  | throttled
  | created (winBps : Int)
deriving DecidableEq, Repr

/-- Model of the `POST /entry` handler (lottery.ts lines 161-263): missing
fields (JavaScript falsiness of a zero premium included), wallet format and
positive-integer premium validation; the per-wallet rate limit of 5 per
minute; invoice lookup and pending check; rejection when a pending entry
already exists for the invoice; lazy pool creation with default
parameters; then, atomically, the entry insert (note the create statement
stores the payment signature in the `on_chain_address` column) and the
pool premium credit. -/
def entryRoute (invoiceId : String) (invoiceIdPresent : Bool)
    (clientWallet : String) (clientWalletPresent clientWalletValid : Bool)
    (premiumAmount : Int) (txSignature : Option String)
    (riskSlider : Option ℚ) (entryId : String) (now : Int) (s : EntryStore) :
    EntryResult × EntryStore :=
  if ¬invoiceIdPresent ∨ ¬clientWalletPresent ∨ premiumAmount = 0 then
    (EntryResult.badRequest, s)
  else if ¬clientWalletValid then
    (EntryResult.badRequest, s)
  else if premiumAmount ≤ 0 then
    (EntryResult.badRequest, s)
  else
    let rate := checkRateLimit 5 now s.rate
    let s1 := { s with rate := rate.2 }
    if ¬rate.1 then
      (EntryResult.throttled, s1)
    else
      match s1.invoices.find? (fun inv => inv.id == invoiceId) with
      | none => (EntryResult.notFound, s1)
      | some invoice =>
        if invoice.status ≠ InvoiceStatus.pending then
          (EntryResult.badRequest, s1)
        else if (s1.entries.find? (fun en => en.invoice_id == invoiceId)).any
            (fun en => en.status == EntryStatus.pending_vrf) then
          (EntryResult.badRequest, s1)
        else
          let pool := s1.pool.getD defaultPool
          let bps := winProbabilityBpsOf riskSlider
          let newEntry : LotteryEntry :=
            ⟨entryId, invoiceId, clientWallet, invoice.amount, premiumAmount,
              bps, EntryStatus.pending_vrf, none, none, none, none,
              txSignature, none⟩
          (EntryResult.created bps,
            { s1 with
              entries := s1.entries ++ [newEntry]
              pool := some (lotteryPoolQueries.addPremium premiumAmount
                premiumAmount pool) })

theorem winProbabilityBpsOf_none : winProbabilityBpsOf none = 0 := by
  simp [winProbabilityBpsOf, sliderValueOf]

/-- Evaluation of the successful path of `entryRoute`: with present fields, a
valid wallet, a positive premium, an admitting rate limiter, a pending
invoice, no pending duplicate entry and an existing pool, the handler
inserts the entry and credits the pool -- with no condition on the pool's
`paused` flag, which the handler never reads. -/
theorem entryRoute_created (invoiceId clientWallet entryId : String)
    (premiumAmount : Int) (txSig : Option String) (riskSlider : Option ℚ)
    (now : Int) (s : EntryStore) (inv : Invoice) (p : Pool)
    (hpm : 0 < premiumAmount)
    (hrate : (checkRateLimit 5 now s.rate).1 = true)
    (hinv : s.invoices.find? (fun i2 => i2.id == invoiceId) = some inv)
    (hpend : inv.status = InvoiceStatus.pending)
    (hdup : ((s.entries.find? (fun en => en.invoice_id == invoiceId)).any
      (fun en => en.status == EntryStatus.pending_vrf)) = false)
    (hpool : s.pool = some p) :
    entryRoute invoiceId true clientWallet true true premiumAmount txSig
        riskSlider entryId now s =
      (EntryResult.created (winProbabilityBpsOf riskSlider),
        { s with
          rate := (checkRateLimit 5 now s.rate).2
          entries := s.entries ++ [⟨entryId, invoiceId, clientWallet,
            inv.amount, premiumAmount, winProbabilityBpsOf riskSlider,
            EntryStatus.pending_vrf, none, none, none, none, txSig, none⟩]
          pool := some (lotteryPoolQueries.addPremium premiumAmount
            premiumAmount p) }) := by
  unfold entryRoute
  simp [hpm.ne', not_le.mpr hpm, hrate, hinv, hpend, hdup, hpool]

/-- A paused pool holding 10 USDC worth of premiums. -/
def pausedPool : Pool := ⟨10000000, 10000000, 0, 3, 0, 500, 2000, 1000, true⟩

/-- The pending invoice used for the paused-pool scenario. -/
def pausedInvoice : Invoice :=
  ⟨"inv-7", 500, "mint-1", InvoiceStatus.pending, none, none⟩

/-- A store with one pending invoice and the paused pool for its token. -/
def pausedStore : EntryStore := ⟨[pausedInvoice], [], some pausedPool, none⟩

/-- Counterexample to claim C7: with the pool paused, an otherwise valid
entry-creation call still succeeds -- it inserts a new entry and credits
the paused pool, because the handler never reads the `paused` flag. -/
theorem paused_pool_still_accepts_entry :
    (entryRoute "inv-7" true "wallet-1" true true 250 none none "entry-7" 0
        pausedStore).1 = EntryResult.created 0 ∧
    (entryRoute "inv-7" true "wallet-1" true true 250 none none "entry-7" 0
        pausedStore).2.entries.length = 1 ∧
    (entryRoute "inv-7" true "wallet-1" true true 250 none none "entry-7" 0
        pausedStore).2.pool =
      some (lotteryPoolQueries.addPremium 250 250 pausedPool) ∧
    (lotteryPoolQueries.addPremium 250 250 pausedPool).total_balance =
      10000250 ∧
    (lotteryPoolQueries.addPremium 250 250 pausedPool).paused = true := by
  have h := entryRoute_created "inv-7" "wallet-1" "entry-7" 250 none none 0
    pausedStore pausedInvoice pausedPool (by norm_num) rfl rfl rfl rfl rfl
  rw [h]
  refine ⟨by rw [winProbabilityBpsOf_none], by decide, rfl, by decide,
    by decide⟩

/-- Claim C7 amended: the `paused` flag is not consulted by entry creation.
For every paused pool and otherwise valid entry-creation call, the call
succeeds, inserts a new entry and credits the still-paused pool; pausing
only changes what the pool snapshot endpoint advertises. -/
theorem entry_creation_ignores_paused (invoiceId clientWallet entryId :
      String)
    (premiumAmount : Int) (txSig : Option String) (riskSlider : Option ℚ)
    (now : Int) (s : EntryStore) (inv : Invoice) (p : Pool)
    (hpm : 0 < premiumAmount)
    (hrate : (checkRateLimit 5 now s.rate).1 = true)
    (hinv : s.invoices.find? (fun i2 => i2.id == invoiceId) = some inv)
    (hpend : inv.status = InvoiceStatus.pending)
    (hdup : ((s.entries.find? (fun en => en.invoice_id == invoiceId)).any
      (fun en => en.status == EntryStatus.pending_vrf)) = false)
    (hpool : s.pool = some p) (hpaused : p.paused = true) :
    (entryRoute invoiceId true clientWallet true true premiumAmount txSig
        riskSlider entryId now s).1 =
      EntryResult.created (winProbabilityBpsOf riskSlider) ∧
    (entryRoute invoiceId true clientWallet true true premiumAmount txSig
        riskSlider entryId now s).2.entries.length = s.entries.length + 1 ∧
    (entryRoute invoiceId true clientWallet true true premiumAmount txSig
        riskSlider entryId now s).2.pool =
      some (lotteryPoolQueries.addPremium premiumAmount premiumAmount p) ∧
    (lotteryPoolQueries.addPremium premiumAmount premiumAmount p).paused =
      true := by
  rw [entryRoute_created invoiceId clientWallet entryId premiumAmount txSig
    riskSlider now s inv p hpm hrate hinv hpend hdup hpool]
  exact ⟨rfl, by simp, rfl, by simp [lotteryPoolQueries.addPremium, hpaused]⟩

/-- Witness for `entry_creation_ignores_paused` at the concrete paused-pool
store, with a risk slider of 30 (3000 bps). -/
theorem entry_creation_ignores_paused_witness :
    (entryRoute "inv-7" true "wallet-1" true true 250 none (some 30)
        "entry-7" 0 pausedStore).1 =
      EntryResult.created (winProbabilityBpsOf (some 30)) ∧
    (entryRoute "inv-7" true "wallet-1" true true 250 none (some 30)
        "entry-7" 0 pausedStore).2.entries.length =
      pausedStore.entries.length + 1 ∧
    (entryRoute "inv-7" true "wallet-1" true true 250 none (some 30)
        "entry-7" 0 pausedStore).2.pool =
      some (lotteryPoolQueries.addPremium 250 250 pausedPool) ∧
    (lotteryPoolQueries.addPremium 250 250 pausedPool).paused = true :=
  entry_creation_ignores_paused "inv-7" "wallet-1" "entry-7" 250 none
    (some 30) 0 pausedStore pausedInvoice pausedPool (by decide) rfl rfl
    rfl rfl rfl rfl

theorem winProbabilityBpsOf_nonneg (riskSlider : Option ℚ) :
    0 ≤ winProbabilityBpsOf riskSlider :=
  le_min (le_max_right _ _) (by norm_num)

theorem winProbabilityBpsOf_le (riskSlider : Option ℚ) :
    winProbabilityBpsOf riskSlider ≤ 5000 :=
  min_le_right _ _

/-- The entry table after any `POST /entry` call is either unchanged or
extended with exactly one entry whose win probability is the clamped odds
value. -/
theorem entryRoute_entries (invoiceId : String) (invoiceIdPresent : Bool)
    (clientWallet : String) (clientWalletPresent clientWalletValid : Bool)
    (premiumAmount : Int) (txSig : Option String) (riskSlider : Option ℚ)
    (entryId : String) (now : Int) (s : EntryStore) :
    (entryRoute invoiceId invoiceIdPresent clientWallet clientWalletPresent
      clientWalletValid premiumAmount txSig riskSlider entryId now
      s).2.entries = s.entries ∨
    ∃ inv : Invoice,
      (entryRoute invoiceId invoiceIdPresent clientWallet clientWalletPresent
        clientWalletValid premiumAmount txSig riskSlider entryId now
        s).2.entries = s.entries ++ [⟨entryId, invoiceId, clientWallet,
          inv.amount, premiumAmount, winProbabilityBpsOf riskSlider,
          EntryStatus.pending_vrf, none, none, none, none, txSig, none⟩] := by
  unfold entryRoute
  dsimp only
  repeat' split
  any_goals left; rfl
  right
  exact ⟨_, rfl⟩

/-- Claim C9: the computed win probability always equals the risk level
times 100, floored and clamped to [0, 5000] (a missing or non-numeric risk
level counting as 0) -- in particular it lies in [0, 5000] -- and every
entry stored by the entry-creation handler preserves the property that all
stored entries have `win_probability_bps` in [0, 5000]. -/
theorem win_probability_bps_in_range (invoiceId : String)
    (invoiceIdPresent : Bool) (clientWallet : String)
    (clientWalletPresent clientWalletValid : Bool) (premiumAmount : Int)
    (txSig : Option String) (riskSlider : Option ℚ) (entryId : String)
    (now : Int) (s : EntryStore)
    (hinv : ∀ en ∈ s.entries,
      0 ≤ en.win_probability_bps ∧ en.win_probability_bps ≤ 5000) :
    (0 ≤ winProbabilityBpsOf riskSlider ∧
      winProbabilityBpsOf riskSlider ≤ 5000) ∧
    ∀ en ∈ (entryRoute invoiceId invoiceIdPresent clientWallet
        clientWalletPresent clientWalletValid premiumAmount txSig riskSlider
        entryId now s).2.entries,
      0 ≤ en.win_probability_bps ∧ en.win_probability_bps ≤ 5000 := by
  refine ⟨⟨winProbabilityBpsOf_nonneg riskSlider,
    winProbabilityBpsOf_le riskSlider⟩, ?_⟩
  intro en hen
  rcases entryRoute_entries invoiceId invoiceIdPresent clientWallet
    clientWalletPresent clientWalletValid premiumAmount txSig riskSlider
    entryId now s with h | ⟨inv, h⟩
  · exact hinv en (h ▸ hen)
  · rw [h, List.mem_append] at hen
    rcases hen with hold | hnew
    · exact hinv en hold
    · simp only [List.mem_singleton] at hnew
      subst hnew
      exact ⟨winProbabilityBpsOf_nonneg riskSlider,
        winProbabilityBpsOf_le riskSlider⟩

/-- Witness for `win_probability_bps_in_range`: a concrete call with risk
slider 50 (the maximum, 5000 bps) against the one-invoice store. -/
theorem win_probability_bps_in_range_witness :
    (0 ≤ winProbabilityBpsOf (some 50) ∧
      winProbabilityBpsOf (some 50) ≤ 5000) ∧
    ∀ en ∈ (entryRoute "inv-7" true "wallet-1" true true 250 none (some 50)
        "entry-7" 0 pausedStore).2.entries,
      0 ≤ en.win_probability_bps ∧ en.win_probability_bps ≤ 5000 :=
  win_probability_bps_in_range "inv-7" true "wallet-1" true true 250 none
    (some 50) "entry-7" 0 pausedStore (by simp [pausedStore])

/-- True exactly for the success outcome of `POST /entry`. -/
def isCreated : EntryResult → Bool
  | EntryResult.created _ => true
  | _ => false

/-- A sequence of entry-creation calls from one wallet ("wallet-1"), each
given by the targeted invoice id and the call's clock time, with a fixed
valid premium of 5 and no risk slider. -/
def entryCallSeq (calls : List (String × Int)) (s : EntryStore) :
    List EntryResult × EntryStore :=
  match calls with
  | [] => ([], s)
  | c :: rest =>
    let r := entryRoute c.1 true "wallet-1" true true 5 none none
      (String.append "entry-" c.1) c.2 s
    let restOut := entryCallSeq rest r.2
    (r.1 :: restOut.1, restOut.2)

/-- A pending invoice named `n` on the common mint. -/
def c6Invoice (n : String) : Invoice :=
  ⟨n, 100, "mint-1", InvoiceStatus.pending, none, none⟩

/-- Seven pending invoices, an empty entry table, a default pool, and no
rate-limiter window yet for the wallet. -/
def c6Store : EntryStore :=
  ⟨[c6Invoice "inv-a", c6Invoice "inv-b", c6Invoice "inv-c",
    c6Invoice "inv-d", c6Invoice "inv-e", c6Invoice "inv-f",
    c6Invoice "inv-g"], [], some defaultPool, none⟩

/-- Counterexample to claim C6: seven entry-creation calls from one wallet
at times 0, 30000, 30001, 30002, 30003, 60001 and 60002 ms are all
admitted.  The last six fall within a 30-second (hence 60-second) span, so
six calls occur within a 60-second span and the sixth of them is created,
not throttled: the limiter is a fixed window anchored at the first call
(reset at 60000 ms), and the call at 60001 simply starts a fresh window. -/
theorem rate_limiter_window_straddle_counterexample :
    ((entryCallSeq [("inv-a", 0), ("inv-b", 30000), ("inv-c", 30001),
      ("inv-d", 30002), ("inv-e", 30003), ("inv-f", 60001),
      ("inv-g", 60002)] c6Store).1.map isCreated) =
      [true, true, true, true, true, true, true] ∧
    (60002 : Int) - 30000 ≤ 60000 := by
  decide

/-- The rate-limiter map value after any entry-creation call with present
fields, a valid wallet and a positive premium is exactly what
`checkRateLimit` computes, whatever the later checks decide. -/
theorem entryRoute_rate (invoiceId clientWallet entryId : String)
    (premiumAmount : Int) (txSig : Option String) (riskSlider : Option ℚ)
    (now : Int) (s : EntryStore) (hpm : 0 < premiumAmount) :
    (entryRoute invoiceId true clientWallet true true premiumAmount txSig
      riskSlider entryId now s).2.rate = (checkRateLimit 5 now s.rate).2 := by
  unfold entryRoute
  dsimp only
  simp only [hpm.ne', not_le.mpr hpm]
  repeat' split <;> try first | rfl | simp_all

/-- An entry-creation call with present fields, a valid wallet and a
positive premium answers with the distinct throttled outcome exactly when
`checkRateLimit` rejects it. -/
theorem entryRoute_throttled_iff (invoiceId clientWallet entryId : String)
    (premiumAmount : Int) (txSig : Option String) (riskSlider : Option ℚ)
    (now : Int) (s : EntryStore) (hpm : 0 < premiumAmount) :
    (entryRoute invoiceId true clientWallet true true premiumAmount txSig
        riskSlider entryId now s).1 = EntryResult.throttled ↔
      (checkRateLimit 5 now s.rate).1 = false := by
  unfold entryRoute
  dsimp only
  simp only [hpm.ne', not_le.mpr hpm]
  repeat' split <;> try first | rfl | simp_all

/-- Claim C6 amended: the limiter is a fixed 60-second window anchored at
the first call of the window, not a sliding one.  When a wallet with no
active window makes six entry-creation calls (valid fields, positive
premium) and the later five happen no later than 60000 ms after the first,
the sixth call is rejected with the distinct throttled outcome. -/
theorem sixth_call_in_fresh_window_throttled (w : String)
    (i1 i2 i3 i4 i5 i6 e1 e2 e3 e4 e5 e6 : String)
    (t1 t2 t3 t4 t5 t6 : Int) (s : EntryStore) (hrate : s.rate = none)
    (h2 : t2 ≤ t1 + 60000) (h3 : t3 ≤ t1 + 60000) (h4 : t4 ≤ t1 + 60000)
    (h5 : t5 ≤ t1 + 60000) (h6 : t6 ≤ t1 + 60000) :
    (entryRoute i6 true w true true 5 none none e6 t6
      (entryRoute i5 true w true true 5 none none e5 t5
        (entryRoute i4 true w true true 5 none none e4 t4
          (entryRoute i3 true w true true 5 none none e3 t3
            (entryRoute i2 true w true true 5 none none e2 t2
              (entryRoute i1 true w true true 5 none none e1 t1
                s).2).2).2).2).2).1 = EntryResult.throttled := by
  have step : ∀ (k : Nat) (t : Int), t ≤ t1 + 60000 → k < 5 →
      checkRateLimit 5 t (some ⟨k, t1 + 60000⟩) =
        (true, some ⟨k + 1, t1 + 60000⟩) := by
    intro k t ht hk
    unfold checkRateLimit
    dsimp only
    rw [if_neg (by omega), if_neg (by omega)]
  have hr1 : (entryRoute i1 true w true true 5 none none e1 t1 s).2.rate =
      some ⟨1, t1 + 60000⟩ := by
    rw [entryRoute_rate i1 w e1 5 none none t1 s (by norm_num), hrate]
    rfl
  have hr2 : (entryRoute i2 true w true true 5 none none e2 t2
      (entryRoute i1 true w true true 5 none none e1 t1 s).2).2.rate =
      some ⟨2, t1 + 60000⟩ := by
    rw [entryRoute_rate i2 w e2 5 none none t2 _ (by norm_num), hr1,
      step 1 t2 h2 (by norm_num)]
  have hr3 : (entryRoute i3 true w true true 5 none none e3 t3
      (entryRoute i2 true w true true 5 none none e2 t2
        (entryRoute i1 true w true true 5 none none e1 t1
          s).2).2).2.rate = some ⟨3, t1 + 60000⟩ := by
    rw [entryRoute_rate i3 w e3 5 none none t3 _ (by norm_num), hr2,
      step 2 t3 h3 (by norm_num)]
  have hr4 : (entryRoute i4 true w true true 5 none none e4 t4
      (entryRoute i3 true w true true 5 none none e3 t3
        (entryRoute i2 true w true true 5 none none e2 t2
          (entryRoute i1 true w true true 5 none none e1 t1
            s).2).2).2).2.rate = some ⟨4, t1 + 60000⟩ := by
    rw [entryRoute_rate i4 w e4 5 none none t4 _ (by norm_num), hr3,
      step 3 t4 h4 (by norm_num)]
  have hr5 : (entryRoute i5 true w true true 5 none none e5 t5
      (entryRoute i4 true w true true 5 none none e4 t4
        (entryRoute i3 true w true true 5 none none e3 t3
          (entryRoute i2 true w true true 5 none none e2 t2
            (entryRoute i1 true w true true 5 none none e1 t1
              s).2).2).2).2).2.rate = some ⟨5, t1 + 60000⟩ := by
    rw [entryRoute_rate i5 w e5 5 none none t5 _ (by norm_num), hr4,
      step 4 t5 h5 (by norm_num)]
  rw [entryRoute_throttled_iff i6 w e6 5 none none t6 _ (by norm_num), hr5]
  unfold checkRateLimit
  dsimp only
  rw [if_neg (by omega), if_pos (by omega)]

/-- Witness for `sixth_call_in_fresh_window_throttled`: six calls at times
0 through 5 ms against the seven-invoice store. -/
theorem sixth_call_in_fresh_window_throttled_witness :
    (entryRoute "inv-f" true "wallet-1" true true 5 none none "entry-f" 5
      (entryRoute "inv-e" true "wallet-1" true true 5 none none "entry-e" 4
        (entryRoute "inv-d" true "wallet-1" true true 5 none none "entry-d" 3
          (entryRoute "inv-c" true "wallet-1" true true 5 none none
              "entry-c" 2
            (entryRoute "inv-b" true "wallet-1" true true 5 none none
                "entry-b" 1
              (entryRoute "inv-a" true "wallet-1" true true 5 none none
                  "entry-a" 0
                c6Store).2).2).2).2).2).1 = EntryResult.throttled :=
  sixth_call_in_fresh_window_throttled "wallet-1" "inv-a" "inv-b" "inv-c"
    "inv-d" "inv-e" "inv-f" "entry-a" "entry-b" "entry-c" "entry-d"
    "entry-e" "entry-f" 0 1 2 3 4 5 c6Store rfl (by decide) (by decide)
    (by decide) (by decide) (by decide)

end Badass
